import Mathlib

/-!
Verification of the uberbot command-routing core.

This file is a shallow embedding, in Lean 4, of the two Go source files of the
repository: commands.go (command registry, text-message dispatch, recovery
middleware) and v2/core/interaction.go (slash-command schema synthesis,
interaction dispatch, interaction recovery middleware).

Modelling conventions:
- A Go map with string keys is an association list (mapLookup / mapInsert);
  mapInsert overwrites the value of an existing key, as Go assignment does.
- A Go nil pointer or nil slice is an Option set to none.
- Handler function values (BotFunction, InteractionFunc) are opaque to the
  dispatch core, so they are modelled by an identifier, with none standing for
  a nil Go function value.
- A Go run-time panic in the embedded code is an Except.error carrying the
  fault, or an explicit result constructor, as noted at each definition.
- strings.ToLower is modelled on ASCII data via Char.toLower, which agrees
  with the Go function on the ASCII triggers and aliases the code handles.
-/

namespace Uberbot

/-- Lookup in a Go string-keyed map modelled as an association list. -/
def mapLookup {α : Type} : List (String × α) → String → Option α
  | [], _ => none
  | (k', v) :: rest, k => if k' = k then some v else mapLookup rest k

/-- Assignment m[k] = v in a Go string-keyed map: overwrite if the key exists,
append otherwise. -/
def mapInsert {α : Type} : List (String × α) → String → α → List (String × α)
  | [], k, v => [(k, v)]
  | (k', v') :: rest, k, v =>
    if k' = k then (k', v) :: rest else (k', v') :: mapInsert rest k v

/-- strings.ToLower, modelled on the character data of the string. -/
def toLower (s : String) : String := String.mk (s.data.map Char.toLower)

/-- Modelled from the spec: the ArgumentDescriptor contract (the ArgInfo type
is defined outside src/). Fields are exactly the ones the embedded source
reads: TypeGuard (the type tag), Description, Required, Choices. -/
structure ArgInfo where
  TypeGuard : String
  Description : String
  Required : Bool
  Choices : Option (List String)
deriving DecidableEq

/-- Modelled from the spec: the ArgTypeGuards constants (defined outside
src/). The spec fixes the tag enumeration (integer, string,
channel-reference, user-reference, role-reference, boolean, subcommand,
subcommand-group) and states that the fallback lookup of the literal key
"String" in applicationCommandTypes yields the string option type, so each
constant is modelled as its Go identifier spelled as a string. -/
def tgInt : String := "Int"

/-- Modelled from the spec: the string type tag; see tgInt. -/
def tgString : String := "String"

/-- Modelled from the spec: the channel-reference type tag; see tgInt. -/
def tgChannel : String := "Channel"

/-- Modelled from the spec: the user-reference type tag; see tgInt. -/
def tgUser : String := "User"

/-- Modelled from the spec: the role-reference type tag; see tgInt. -/
def tgRole : String := "Role"

/-- Modelled from the spec: the boolean type tag; see tgInt. -/
def tgBoolean : String := "Boolean"

/-- Modelled from the spec: the subcommand type tag; see tgInt. -/
def tgSubCmd : String := "SubCmd"

/-- Modelled from the spec: the subcommand-group type tag; see tgInt. -/
def tgSubCmdGrp : String := "SubCmdGrp"

/-- External library constant discordgo.ApplicationCommandOptionSubCommand. -/
def ApplicationCommandOptionSubCommand : Nat := 1

/-- External library constant discordgo.ApplicationCommandOptionSubCommandGroup. -/
def ApplicationCommandOptionSubCommandGroup : Nat := 2

/-- External library constant discordgo.ApplicationCommandOptionString. -/
def ApplicationCommandOptionString : Nat := 3

/-- External library constant discordgo.ApplicationCommandOptionInteger. -/
def ApplicationCommandOptionInteger : Nat := 4

/-- External library constant discordgo.ApplicationCommandOptionBoolean. -/
def ApplicationCommandOptionBoolean : Nat := 5

/-- External library constant discordgo.ApplicationCommandOptionUser. -/
def ApplicationCommandOptionUser : Nat := 6

/-- External library constant discordgo.ApplicationCommandOptionChannel. -/
def ApplicationCommandOptionChannel : Nat := 7

/-- External library constant discordgo.ApplicationCommandOptionRole. -/
def ApplicationCommandOptionRole : Nat := 8

/-- applicationCommandTypes (interaction.go, lines 14 to 23): the fixed map
from internal type tags to discordgo option types. -/
def applicationCommandTypes : List (String × Nat) :=
  [ (tgInt, ApplicationCommandOptionInteger),
    (tgString, ApplicationCommandOptionString),
    (tgChannel, ApplicationCommandOptionChannel),
    (tgUser, ApplicationCommandOptionUser),
    (tgRole, ApplicationCommandOptionRole),
    (tgBoolean, ApplicationCommandOptionBoolean),
    (tgSubCmd, ApplicationCommandOptionSubCommand),
    (tgSubCmdGrp, ApplicationCommandOptionSubCommandGroup) ]

/-- CommandInfo (commands.go, lines 26 to 37). Arguments is a pointer to an
ordered map, modelled as an Option over an ordered association list (none is
the Go nil pointer). -/
structure CommandInfo where
  Aliases : List String
  Arguments : Option (List (String × ArgInfo))
  Description : String
  Group : String
  ParentID : String
  Public : Bool
  IsTyping : Bool
  IsParent : Bool
  IsChild : Bool
  Trigger : String
deriving DecidableEq

/-- Command (commands.go, lines 57 to 60). The BotFunction value is opaque to
the dispatch core and is modelled by an identifier; none is a nil function. -/
structure Command where
  Info : CommandInfo
  Function : Option Nat
deriving DecidableEq

/-- discordgo.ApplicationCommandOptionChoice as built by the source: the
choice name and value are the same string (interaction.go, lines 90 to 94). -/
structure AppCommandOptionChoice where
  Name : String
  Value : String
deriving DecidableEq

/-- discordgo.ApplicationCommandOption, restricted to the fields the source
writes (interaction.go, lines 81 to 86). -/
structure AppCommandOption where
  type : Nat
  Name : String
  Description : String
  Required : Bool
  Choices : List AppCommandOptionChoice
deriving DecidableEq

/-- discordgo.ApplicationCommand, restricted to the fields the source writes.
Options entries are pointers in Go, so each is an Option (none is a nil
pointer left by a skipped write); a nil or absent Options slice is []. -/
structure AppCommand where
  Name : String
  Description : String
  Options : List (Option AppCommandOption)
deriving DecidableEq

/-- The package-level registry tables of commands.go (lines 77 to 94),
gathered into one state record: commands, childCommands, commandAliases and
slashCommands. -/
structure RegistryState where
  commands : List (String × Command)
  childCommands : List (String × List (String × Command))
  commandAliases : List (String × String)
  slashCommands : List (String × AppCommand)
deriving DecidableEq

/-- The empty registry: the initial value of the four package-level tables. -/
def emptyRegistry : RegistryState :=
  { commands := [], childCommands := [], commandAliases := [], slashCommands := [] }

/-- The alias-registration loop of AddCommand (commands.go, lines 107 to 114):
for each alias in order, first check the table with the alias exactly as
written; on a hit, log and skip; on a miss, lower-case the alias and insert it
mapping to info.Trigger exactly as written. -/
def addAliases (tbl : List (String × String)) (as : List String) (trig : String) :
    List (String × String) :=
  match as with
  | [] => tbl
  | al :: rest =>
    match mapLookup tbl al with
    | some _ => addAliases tbl rest trig
    | none => addAliases (mapInsert tbl (toLower al) trig) rest trig

/-- AddCommand (commands.go, lines 98 to 117): append the trigger to the alias
list, build the Command from the updated info, run the alias loop, then store
the command under the lower-cased trigger (overwriting any prior entry). -/
def AddCommand (st : RegistryState) (info : CommandInfo) (function : Option Nat) :
    RegistryState :=
  let info' : CommandInfo := { info with Aliases := info.Aliases ++ [info.Trigger] }
  let command : Command := { Info := info', Function := function }
  { st with
    commandAliases := addAliases st.commandAliases info'.Aliases info'.Trigger,
    commands := mapInsert st.commands (toLower info'.Trigger) command }

/-- AddChildCommand (commands.go, lines 121 to 133): store the command in the
two-level child table under the lower-cased ParentID and the trigger exactly
as written. -/
def AddChildCommand (st : RegistryState) (info : CommandInfo) (function : Option Nat) :
    RegistryState :=
  let command : Command := { Info := info, Function := function }
  let parentID := toLower info.ParentID
  let cur := (mapLookup st.childCommands parentID).getD []
  { st with
    childCommands :=
      mapInsert st.childCommands parentID (mapInsert cur command.Info.Trigger command) }

/-- The option built for one argument descriptor in the loop body of
createApplicationCommandStruct (interaction.go, lines 72 to 96): map the type
tag through applicationCommandTypes, falling back on a lookup of the literal
key "String" (a plain Go map read, yielding the zero value 0 were the key
absent); copy name, description and required flag; expand Choices when the
descriptor has a non-nil choice list. -/
def createOption (k : String) (vv : ArgInfo) : AppCommandOption :=
  { type :=
      match mapLookup applicationCommandTypes vv.TypeGuard with
      | some val => val
      | none => (mapLookup applicationCommandTypes "String").getD 0,
    Name := k,
    Description := vv.Description,
    Required := vv.Required,
    Choices :=
      match vv.Choices with
      | none => []
      | some cs => cs.map (fun c => { Name := c, Value := c }) }

/-- createApplicationCommandStruct (interaction.go, lines 59 to 99): a flat
schema without options when Arguments is nil or has no keys; otherwise one
option per descriptor, in descriptor order, every slot written. -/
def createApplicationCommandStruct (info : CommandInfo) : AppCommand :=
  match info.Arguments with
  | none => { Name := info.Trigger, Description := info.Description, Options := [] }
  | some args =>
    if args.length < 1 then
      { Name := info.Trigger, Description := info.Description, Options := [] }
    else
      { Name := info.Trigger, Description := info.Description,
        Options := args.map (fun p => some (createOption p.1 p.2)) }

/-- The Go run-time faults the embedded code can raise. Both are values
implementing runtime.Error in Go. -/
inductive GoFault where
  | nilDereference
  | indexOutOfRange
deriving DecidableEq

/-- The expression v.Info.Arguments.Get(v.Info.Arguments.Keys()[0]) of
createChatInputSubCmdStruct (interaction.go, line 111): reading Keys() of a
nil ordered map dereferences a nil pointer, indexing an empty key list is out
of range; otherwise the first descriptor is returned and its TypeGuard read. -/
def firstArgTypeGuard (args : Option (List (String × ArgInfo))) : Except GoFault String :=
  match args with
  | none => Except.error GoFault.nilDereference
  | some [] => Except.error GoFault.indexOutOfRange
  | some ((_, vv) :: _) => Except.ok vv.TypeGuard

/-- Modelled from the spec: CommandInfo.CreateAppOptSt (defined outside src/)
converts one child command into one schema option, the recursively
synthesized schema of the child as a subcommand option. The fields no claim
depends on (the nested options of the child) are not modelled. -/
def CommandInfo.CreateAppOptSt (info : CommandInfo) : AppCommandOption :=
  { type := ApplicationCommandOptionSubCommand,
    Name := info.Trigger,
    Description := info.Description,
    Required := false,
    Choices := [] }

/-- The child loop of createChatInputSubCmdStruct (interaction.go, lines 108
to 120), as the list of options actually written at positions 0, 1, ... of
the slice: each child whose first descriptor is tagged SubCmdGrp is skipped
(currentPos not advanced); reading the first descriptor of a child with a nil
or empty Arguments map faults, aborting the loop. -/
def subCmdOptions : List (String × Command) → Except GoFault (List AppCommandOption)
  | [] => Except.ok []
  | (_, v) :: rest =>
    match firstArgTypeGuard v.Info.Arguments with
    | Except.error e => Except.error e
    | Except.ok tg =>
      if tg = tgSubCmdGrp then subCmdOptions rest
      else
        match subCmdOptions rest with
        | Except.error e => Except.error e
        | Except.ok os => Except.ok (v.Info.CreateAppOptSt :: os)

/-- createChatInputSubCmdStruct (interaction.go, lines 102 to 122): the
Options slice is allocated with length len(childCmds) and all entries nil;
the loop writes the non-skipped children in iteration order at the front,
leaving nil entries in the trailing positions. -/
def createChatInputSubCmdStruct (info : CommandInfo) (childCmds : List (String × Command)) :
    Except GoFault AppCommand :=
  match subCmdOptions childCmds with
  | Except.error e => Except.error e
  | Except.ok filled =>
    Except.ok
      { Name := info.Trigger, Description := info.Description,
        Options := filled.map some ++ List.replicate (childCmds.length - filled.length) none }

/-- AddSlashCommand (commands.go, lines 138 to 149). The Go guard on the first
branch is (not IsParent or not IsChild), so it covers every command that is
not simultaneously parent and child; only a command that is both reaches the
second branch, which synthesizes from childCommands indexed by the trigger
exactly as written. A fault from the synthesis propagates as the error. -/
def AddSlashCommand (st : RegistryState) (info : CommandInfo) : Except GoFault RegistryState :=
  if !info.IsParent || !info.IsChild then
    Except.ok
      { st with slashCommands :=
          mapInsert st.slashCommands (toLower info.Trigger) (createApplicationCommandStruct info) }
  else if info.IsParent then
    match createChatInputSubCmdStruct info ((mapLookup st.childCommands info.Trigger).getD []) with
    | Except.error e => Except.error e
    | Except.ok s =>
      Except.ok
        { st with slashCommands := mapInsert st.slashCommands (toLower info.Trigger) s }
  else Except.ok st

/-- strings.SplitN(s, " ", 2) (commands.go, line 322): split at the first
space, if any. The first component is split[0]; the second is split[1] when
present (none models a length-1 result). -/
def breakAtSpace : List Char → Option (List Char × List Char)
  | [] => none
  | c :: cs =>
    if c = ' ' then some ([], cs)
    else
      match breakAtSpace cs with
      | none => none
      | some (l, r) => some (c :: l, r)

/-- See breakAtSpace: the (first-token, rest) pair of strings.SplitN with
separator " " and limit 2. -/
def splitN2 (s : String) : String × Option String :=
  match breakAtSpace s.data with
  | none => (s, none)
  | some (l, r) => (String.mk l, some (String.mk r))

/-- A handler invocation as the dispatch core determines it: which function
value is called, with which CommandInfo, and the raw string handed to
ParseArguments (none models the literal Args nil of the parent fallback;
ParseArguments itself is external to src/, so only its input is recorded). -/
structure InvokeRecord where
  function : Option Nat
  cmd : CommandInfo
  argInput : Option String
deriving DecidableEq

/-- handleChildCommand (commands.go, lines 321 to 350): split the remainder at
the first space; look the first token up among childCommands[command.Info.Trigger]
(a missing parent key reads as the nil map); on a miss invoke the parent with
Args nil; on a hit invoke the child, parsing from the empty string when the
split had no second component and from the rest otherwise. -/
def handleChildCommand (childTbl : List (String × List (String × Command)))
    (command : Command) (argString : String) : InvokeRecord :=
  match mapLookup ((mapLookup childTbl command.Info.Trigger).getD []) (splitN2 argString).1 with
  | none => { function := command.Function, cmd := command.Info, argInput := none }
  | some childCmd =>
    match (splitN2 argString).2 with
    | none => { function := childCmd.Function, cmd := childCmd.Info, argInput := some "" }
    | some rest => { function := childCmd.Function, cmd := childCmd.Info, argInput := some rest }

/-- The command lookup of commandHandler (commands.go, line 273):
commands[commandAliases[*trigger]], with the token lower-cased on the way in
(ExtractCommand is external to src/; the dispatch path under test is the one
named by the spec, over the lower-cased token). A missing alias entry reads
as the zero value "", which is then looked up in the trigger table. -/
def resolveCommand (st : RegistryState) (token : String) : Option Command :=
  mapLookup st.commands ((mapLookup st.commandAliases (toLower token)).getD "")

/-- The dispatch decision of commandHandler after the lookup (commands.go,
lines 273 to 307): none models the command-not-found early return; a parent
command routes through handleChildCommand; any other command is invoked with
ParseArguments over the whole remainder. -/
def textDispatch (st : RegistryState) (token : String) (argString : String) :
    Option InvokeRecord :=
  match resolveCommand st token with
  | none => none
  | some command =>
    if command.Info.IsParent then some (handleChildCommand st.childCommands command argString)
    else some { function := command.Function, cmd := command.Info, argInput := some argString }

/-- Two to the sixty-third power, for the Go int wrap-around. -/
def twoPow63 : Int := 9223372036854775808

/-- Wrap-around of a Go 64-bit int. -/
def wrap64 (n : Int) : Int := (n + twoPow63) % (2 * twoPow63) - twoPow63

/-- The counter update at the end of commandHandler (commands.go, lines 309 to
314): if commandsGC == 25 && commandsGC > 25 then free memory and reset to 0,
else increment (with Go int wrap-around). The Bool records whether
debug.FreeOSMemory was called. -/
def commandsGCStep (c : Int) : Int × Bool :=
  if c = 25 ∧ c > 25 then (0, true) else (wrap64 (c + 1), false)

/-- A recovered Go panic value, classified by whether its dynamic type
implements runtime.Error: runtimeErr covers the run-time faults (nil
dereference, index out of range, failed interface conversion, nil function
call); stringVal covers panic with a string; otherVal covers every other
dynamic type. -/
inductive RecoveredValue where
  | runtimeErr (msg : String)
  | stringVal (s : String)
  | otherVal (tag : String)
deriving DecidableEq

/-- Whether the type assertion r.(runtime.Error) succeeds on the value. -/
def isRuntimeError : RecoveredValue → Bool
  | RecoveredValue.runtimeErr _ => true
  | _ => false

/-- The observable outcome of one run of a deferred recovery function:
noFault means recover() returned nil and the function did nothing;
recoveredReported means a panic was recovered and the whole report, notice
and delete sequence ran to the end; refaulted means the recovery function
itself panicked at the recorded place. -/
inductive MiddlewareResult where
  | noFault
  | recoveredReported
  | refaulted (cause : String)
deriving DecidableEq

/-- handleCommandError (commands.go, lines 352 to 366), as a function of the
recovered value (none when the handler returned normally) and of whether
Session.ChannelMessageSend fails. The body first asserts r.(runtime.Error),
which panics on any value not implementing runtime.Error; when the send
fails, message is nil and the later message.ID dereference panics; the error
of the final ChannelMessageDelete is discarded. -/
def handleCommandError (r : Option RecoveredValue) (sendFails : Bool) : MiddlewareResult :=
  match r with
  | none => MiddlewareResult.noFault
  | some v =>
    if isRuntimeError v then
      if sendFails then MiddlewareResult.refaulted "nil pointer dereference at message.ID"
      else MiddlewareResult.recoveredReported
    else MiddlewareResult.refaulted "interface conversion to runtime.Error"

/-- handleInteractionError (interaction.go, lines 256 to 282), as a function
of the recovered value and of whether InteractionResponseEdit and the
fallback InteractionRespond fail. The body first asserts r.(runtime.Error);
when the edit fails, the fallback branch calls err.Error() on the error of
InteractionRespond, which is a nil interface when the respond succeeded
(panic), and when the respond also failed, the following message.ID
dereference panics on the nil message from the failed edit; the error of the
final ChannelMessageDelete is only logged. -/
def handleInteractionError (r : Option RecoveredValue) (editFails respondFails : Bool) :
    MiddlewareResult :=
  match r with
  | none => MiddlewareResult.noFault
  | some v =>
    if isRuntimeError v then
      if editFails then
        if respondFails then MiddlewareResult.refaulted "nil pointer dereference at message.ID"
        else MiddlewareResult.refaulted "nil interface call at err.Error"
      else MiddlewareResult.recoveredReported
    else MiddlewareResult.refaulted "interface conversion to runtime.Error"

/-- InteractionInfo (interaction.go, lines 27 to 29). -/
structure InteractionInfo where
  Id : String
deriving DecidableEq

/-- InteractionHandler (interaction.go, lines 39 to 42); none is a nil
InteractionFunc. -/
structure InteractionHandler where
  Info : InteractionInfo
  Function : Option Nat
deriving DecidableEq

/-- The zero value a Go map read yields for a missing InteractionHandler key:
zero-value Info and a nil Function. -/
def zeroInteractionHandler : InteractionHandler :=
  { Info := { Id := "" }, Function := none }

/-- The panic raised by calling a nil Go function value: a run-time error. -/
def nilFunctionFault : RecoveredValue :=
  RecoveredValue.runtimeErr "invalid memory address or nil pointer dereference"

/-- The observable behaviour of one run of handleMessageComponents:
notFoundCall is the result of the non-deferred handleInteractionError call
made on a lookup miss (none when the lookup hit); calledNilFunction records
whether the nil Function of the zero-value handler was invoked (which
panics); invoked is the identifier of the real handler function called, if
any; deferredOutcome is the result of the deferred handleInteractionError. -/
structure ComponentDispatch where
  notFoundCall : Option MiddlewareResult
  calledNilFunction : Bool
  invoked : Option Nat
  deferredOutcome : MiddlewareResult
deriving DecidableEq

/-- handleMessageComponents (interaction.go, lines 190 to 203), as a function
of the handler table, the CustomID, the behaviour of each real handler
(what panic value it raises, if any, keyed by function identifier) and the
outbound-call outcomes. On a lookup miss the code calls
handleInteractionError directly, not deferred: recover() inside it returns
nil (Go defines recover outside a deferred function as a no-op), so the call
does nothing, and the function does not return early; the zero-value handler
with nil Function is then invoked, which panics with a run-time error, and
the deferred handleInteractionError processes that panic. -/
def handleMessageComponents (handlers : List (String × InteractionHandler))
    (customID : String) (handlerFault : Nat → Option RecoveredValue)
    (editFails respondFails : Bool) : ComponentDispatch :=
  let found := mapLookup handlers customID
  let handler := found.getD zeroInteractionHandler
  let nf : Option MiddlewareResult :=
    match found with
    | none => some (handleInteractionError none editFails respondFails)
    | some _ => none
  match handler.Function with
  | none =>
    { notFoundCall := nf, calledNilFunction := true, invoked := none,
      deferredOutcome := handleInteractionError (some nilFunctionFault) editFails respondFails }
  | some f =>
    { notFoundCall := nf, calledNilFunction := false, invoked := some f,
      deferredOutcome := handleInteractionError (handlerFault f) editFails respondFails }

theorem mapLookup_insert_self {α : Type} (m : List (String × α)) (k : String) (v : α) :
    mapLookup (mapInsert m k v) k = some v := by
  induction m with
  | nil => simp [mapInsert, mapLookup]
  | cons p m ih =>
    obtain ⟨k', v'⟩ := p
    by_cases h : k' = k
    · simp [mapInsert, mapLookup, h]
    · simp [mapInsert, mapLookup, h, ih]

theorem mapLookup_insert_ne {α : Type} (m : List (String × α)) (k k' : String) (v : α)
    (h : k' ≠ k) : mapLookup (mapInsert m k' v) k = mapLookup m k := by
  induction m with
  | nil => simp [mapInsert, mapLookup, h]
  | cons p m ih =>
    obtain ⟨k0, v0⟩ := p
    by_cases h0 : k0 = k'
    · subst h0
      simp [mapInsert, mapLookup, h]
    · simp [mapInsert, mapLookup, h0, ih]

theorem addAliases_append (tbl : List (String × String)) (l1 l2 : List String)
    (trig : String) :
    addAliases tbl (l1 ++ l2) trig = addAliases (addAliases tbl l1 trig) l2 trig := by
  induction l1 generalizing tbl with
  | nil => simp [addAliases]
  | cons a l ih =>
    cases h : mapLookup tbl a with
    | none => simp [addAliases, h, ih]
    | some w => simp [addAliases, h, ih]

theorem addAliases_preserve (tbl : List (String × String)) (as : List String)
    (trig k v : String) (h1 : mapLookup tbl k = some v)
    (h2 : ∀ b ∈ as, toLower b = k → b = k) :
    mapLookup (addAliases tbl as trig) k = some v := by
  induction as generalizing tbl with
  | nil => simpa [addAliases] using h1
  | cons a rest ih =>
    cases h : mapLookup tbl a with
    | some w =>
      simp only [addAliases, h]
      exact ih tbl h1 (fun b hb => h2 b (List.mem_cons_of_mem a hb))
    | none =>
      simp only [addAliases, h]
      have hne : toLower a ≠ k := by
        intro hEq
        have : a = k := h2 a (List.mem_cons_self a rest) hEq
        rw [this] at h
        rw [h] at h1
        exact Option.noConfusion h1
      have h1' : mapLookup (mapInsert tbl (toLower a) trig) k = some v := by
        rw [mapLookup_insert_ne tbl k (toLower a) trig hne]
        exact h1
      exact ih (mapInsert tbl (toLower a) trig) h1'
        (fun b hb => h2 b (List.mem_cons_of_mem a hb))

theorem addAliases_lookup_none (tbl : List (String × String)) (as : List String)
    (trig k : String) (h1 : mapLookup tbl k = none)
    (h2 : ∀ b ∈ as, toLower b ≠ k) :
    mapLookup (addAliases tbl as trig) k = none := by
  induction as generalizing tbl with
  | nil => simpa [addAliases] using h1
  | cons a rest ih =>
    cases h : mapLookup tbl a with
    | some w =>
      simp only [addAliases, h]
      exact ih tbl h1 (fun b hb => h2 b (List.mem_cons_of_mem a hb))
    | none =>
      simp only [addAliases, h]
      have hne : toLower a ≠ k := h2 a (List.mem_cons_self a rest)
      have h1' : mapLookup (mapInsert tbl (toLower a) trig) k = none := by
        rw [mapLookup_insert_ne tbl k (toLower a) trig hne]
        exact h1
      exact ih (mapInsert tbl (toLower a) trig) h1'
        (fun b hb => h2 b (List.mem_cons_of_mem a hb))

/-- C1: the claim states that whenever a handler panics, handleCommandError
and handleInteractionError recover it, produce the admin report and the
transient notice, and never themselves panic, for every panic value type and
every outcome of the outbound send, edit and delete calls. The code violates
this: both functions re-panic at the r.(runtime.Error) interface conversion
whenever the panic value does not implement runtime.Error (for example a
plain string), handleCommandError panics dereferencing the nil message when
the send fails, and handleInteractionError panics (at err.Error() or at
message.ID) whenever the edit fails. This theorem evaluates the middleware
model at those failing inputs. -/
theorem c1_middleware_refaults_on_failing_inputs :
    handleCommandError (some (RecoveredValue.stringVal "oops")) false
      = MiddlewareResult.refaulted "interface conversion to runtime.Error" ∧
    handleCommandError (some (RecoveredValue.runtimeErr "assignment to entry in nil map")) true
      = MiddlewareResult.refaulted "nil pointer dereference at message.ID" ∧
    handleInteractionError (some (RecoveredValue.stringVal "oops")) false false
      = MiddlewareResult.refaulted "interface conversion to runtime.Error" ∧
    handleInteractionError (some (RecoveredValue.runtimeErr "oob")) true false
      = MiddlewareResult.refaulted "nil interface call at err.Error" ∧
    handleInteractionError (some (RecoveredValue.runtimeErr "oob")) true true
      = MiddlewareResult.refaulted "nil pointer dereference at message.ID" ∧
    handleCommandError (some (RecoveredValue.runtimeErr "oob")) false
      = MiddlewareResult.recoveredReported :=
  ⟨rfl, rfl, rfl, rfl, rfl, rfl⟩

/-- C6: for every value of the commandsGC counter, the guard
commandsGC == 25 && commandsGC > 25 evaluates to false, so the handler never
calls debug.FreeOSMemory and never resets the counter: the step always
increments (as a Go 64-bit int). -/
theorem c6_gc_guard_never_fires :
    ∀ c : Int, (decide (c = 25) && decide (c > 25)) = false ∧
      commandsGCStep c = (wrap64 (c + 1), false) := by
  intro c
  have hguard : ¬(c = 25 ∧ c > 25) := by omega
  constructor
  · rcases eq_or_ne c 25 with h | h
    · subst h
      decide
    · simp [h]
  · simp [commandsGCStep, hguard]

/-- C10: for every component-activation interaction whose CustomID matches no
registered interaction handler, handleMessageComponents does not return
early; the non-deferred call to handleInteractionError recovers nothing (a
no-op, since recover outside a deferred call returns nil); the zero-value
handler with nil Function is then invoked and panics with a run-time error;
and the deferred recovery processes that panic exactly as a handler failure
(completing the report when the response edit succeeds). -/
theorem c10_unregistered_component_flow (handlers : List (String × InteractionHandler))
    (customID : String) (handlerFault : Nat → Option RecoveredValue)
    (editFails respondFails : Bool)
    (h : mapLookup handlers customID = none) :
    handleMessageComponents handlers customID handlerFault editFails respondFails =
      { notFoundCall := some MiddlewareResult.noFault,
        calledNilFunction := true,
        invoked := none,
        deferredOutcome :=
          handleInteractionError (some nilFunctionFault) editFails respondFails } ∧
    (editFails = false →
      handleInteractionError (some nilFunctionFault) editFails respondFails
        = MiddlewareResult.recoveredReported) := by
  constructor
  · simp [handleMessageComponents, h, zeroInteractionHandler, handleInteractionError]
  · intro he
    subst he
    rfl

/-- C10 witness: the empty handler table and the CustomID "nope". -/
theorem c10_unregistered_component_flow_witness :
    handleMessageComponents [] "nope" (fun _ => none) false false =
      { notFoundCall := some MiddlewareResult.noFault,
        calledNilFunction := true,
        invoked := none,
        deferredOutcome := handleInteractionError (some nilFunctionFault) false false } ∧
    handleInteractionError (some nilFunctionFault) false false
      = MiddlewareResult.recoveredReported := by
  have h := c10_unregistered_component_flow [] "nope" (fun _ => none) false false rfl
  exact ⟨h.1, h.2 rfl⟩

/-- C5: on the text path, handleChildCommand splits the remainder at the first
space into (first-token, rest); if the first token matches no registered
child of the parent, the parent handler is invoked with no parsed arguments
(Args nil); if it matches and the split produced no rest, the child handler
is invoked with arguments parsed from the empty string; otherwise the child
handler is invoked with arguments parsed from rest. -/
theorem c5_parent_child_resolution (childTbl : List (String × List (String × Command)))
    (command : Command) (argString : String) :
    (mapLookup ((mapLookup childTbl command.Info.Trigger).getD []) (splitN2 argString).1 = none →
      handleChildCommand childTbl command argString =
        { function := command.Function, cmd := command.Info, argInput := none }) ∧
    (∀ c : Command,
      mapLookup ((mapLookup childTbl command.Info.Trigger).getD []) (splitN2 argString).1 = some c →
      ((splitN2 argString).2 = none →
        handleChildCommand childTbl command argString =
          { function := c.Function, cmd := c.Info, argInput := some "" }) ∧
      (∀ r : String, (splitN2 argString).2 = some r →
        handleChildCommand childTbl command argString =
          { function := c.Function, cmd := c.Info, argInput := some r })) := by
  constructor
  · intro h
    simp [handleChildCommand, h]
  · intro c h
    constructor
    · intro h2
      simp [handleChildCommand, h, h2]
    · intro r h2
      simp [handleChildCommand, h, h2]

/-- A default CommandInfo used to build the concrete fixtures below. -/
def baseInfo : CommandInfo :=
  { Aliases := [], Arguments := none, Description := "", Group := "", ParentID := "",
    Public := true, IsTyping := false, IsParent := false, IsChild := false, Trigger := "" }

/-- Fixture: the child command "set" of the parent "config". -/
def setCmd : Command :=
  { Info := { baseInfo with Trigger := "set", ParentID := "config", IsChild := true },
    Function := some 11 }

/-- Fixture: the child command "get" of the parent "config". -/
def getCmd : Command :=
  { Info := { baseInfo with Trigger := "get", ParentID := "config", IsChild := true },
    Function := some 12 }

/-- Fixture: the parent command "config". -/
def configCmd : Command :=
  { Info := { baseInfo with Trigger := "config", IsParent := true }, Function := some 10 }

/-- Fixture: the child table holding "set" and "get" under "config". -/
def configChildTbl : List (String × List (String × Command)) :=
  [("config", [("set", setCmd), ("get", getCmd)])]

/-- C5 witness: with parent "config" and children "set" and "get", the
remainder "set foo" invokes the "set" child with argument remainder "foo",
the empty remainder invokes the parent with no arguments, and the remainder
"bogus" invokes the parent with no arguments. -/
theorem c5_parent_child_resolution_witness :
    handleChildCommand configChildTbl configCmd "set foo" =
      { function := setCmd.Function, cmd := setCmd.Info, argInput := some "foo" } ∧
    handleChildCommand configChildTbl configCmd "" =
      { function := configCmd.Function, cmd := configCmd.Info, argInput := none } ∧
    handleChildCommand configChildTbl configCmd "bogus" =
      { function := configCmd.Function, cmd := configCmd.Info, argInput := none } := by
  refine ⟨?_, ?_, ?_⟩
  · exact ((c5_parent_child_resolution configChildTbl configCmd "set foo").2 setCmd
      (by decide)).2 "foo" (by decide)
  · exact (c5_parent_child_resolution configChildTbl configCmd "").1 (by decide)
  · exact (c5_parent_child_resolution configChildTbl configCmd "bogus").1 (by decide)

/-- Fixture: a command registered under the mixed-case trigger "Ban". -/
def banInfo : CommandInfo := { baseInfo with Trigger := "Ban" }

/-- C2: the claim states that registering a command under trigger "Ban" makes
the tokens "ban", "BAN" and "Ban" all resolve to that command through
commands[commandAliases[lowercased token]]. The code violates this: the alias
loop stores the trigger exactly as written ("Ban") as the value, while the
trigger table is keyed by the lower-cased trigger ("ban"), so the composed
lookup misses for every casing and the dispatch takes the command-not-found
path, even though the command does sit in the trigger table. -/
theorem c2_mixed_case_trigger_unresolvable :
    mapLookup (AddCommand emptyRegistry banInfo (some 7)).commands "ban"
      = some { Info := { baseInfo with Aliases := ["Ban"], Trigger := "Ban" },
               Function := some 7 } ∧
    mapLookup (AddCommand emptyRegistry banInfo (some 7)).commandAliases "ban" = some "Ban" ∧
    resolveCommand (AddCommand emptyRegistry banInfo (some 7)) "ban" = none ∧
    resolveCommand (AddCommand emptyRegistry banInfo (some 7)) "BAN" = none ∧
    resolveCommand (AddCommand emptyRegistry banInfo (some 7)) "Ban" = none ∧
    textDispatch (AddCommand emptyRegistry banInfo (some 7)) "ban" "" = none := by
  decide

/-- Fixture: the first command of the C3 scenario, claiming alias "mod". -/
def c3first : CommandInfo := { baseInfo with Trigger := "first", Aliases := ["mod"] }

/-- Fixture: the second command of the C3 scenario, declaring the alias in a
different casing, "Mod". -/
def c3second : CommandInfo := { baseInfo with Trigger := "second", Aliases := ["Mod"] }

/-- Fixture: the second command of the C3 scenario written in lower case. -/
def c3secondLower : CommandInfo := { baseInfo with Trigger := "second", Aliases := ["mod"] }

/-- C3 counterexample: the first command claims alias "mod"; the second
declares the same alias as "Mod". The collision check looks the alias up as
written ("Mod"), misses the stored lower-cased key "mod", and overwrites the
entry: afterwards "mod" maps to "second", not to the first command's trigger
"first" as the claim requires. -/
theorem c3_alias_overwritten_counterexample :
    mapLookup (AddCommand (AddCommand emptyRegistry c3first (some 1)) c3second
        (some 2)).commandAliases "mod" = some "second" ∧
    some "second" ≠ some "first" := by
  decide

/-- C3 amended: after a second AddCommand whose alias collides with one
already claimed, the alias table entry is preserved only when every colliding
alias of the second command is written exactly in the stored lower-cased
form, because the conflict check compares the alias as written against the
lower-cased keys; the registration itself never panics (it is a total
function). -/
theorem c3_alias_preserved_when_exact_lowercase
    (st : RegistryState) (info1 info2 : CommandInfo) (f1 f2 : Option Nat) (a tr : String)
    (h1 : mapLookup (AddCommand st info1 f1).commandAliases a = some tr)
    (h2 : ∀ b ∈ info2.Aliases ++ [info2.Trigger], toLower b = a → b = a) :
    mapLookup (AddCommand (AddCommand st info1 f1) info2 f2).commandAliases a = some tr := by
  show mapLookup (addAliases (AddCommand st info1 f1).commandAliases
    (info2.Aliases ++ [info2.Trigger]) info2.Trigger) a = some tr
  exact addAliases_preserve _ _ _ a tr h1 h2

/-- C3 witness: both commands declare the alias as the lower-case "mod"; the
collision is then detected and the entry keeps mapping to "first". -/
theorem c3_alias_preserved_witness :
    mapLookup (AddCommand (AddCommand emptyRegistry c3first (some 1)) c3secondLower
        (some 2)).commandAliases "mod" = some "first" :=
  c3_alias_preserved_when_exact_lowercase emptyRegistry c3first c3secondLower
    (some 1) (some 2) "mod" "first" (by decide) (by decide)

/-- Fixture: the second registration of the C8 scenario, trigger "ban". -/
def c8second : CommandInfo := { baseInfo with Trigger := "ban" }

/-- C8 counterexample: registering trigger "Ban" and then trigger "ban"
(identical case-insensitively) does overwrite the trigger table entry with
the second command, but the subsequent dispatch of "ban" does not invoke the
newest handler: the alias value is still the first spelling "Ban", the
trigger table has no key "Ban", and the lookup takes the command-not-found
path instead. -/
theorem c8_mixed_case_overwrite_counterexample :
    mapLookup (AddCommand (AddCommand emptyRegistry banInfo (some 1)) c8second
        (some 2)).commands "ban"
      = some { Info := { baseInfo with Aliases := ["ban"], Trigger := "ban" },
               Function := some 2 } ∧
    resolveCommand (AddCommand (AddCommand emptyRegistry banInfo (some 1)) c8second
        (some 2)) "ban" = none ∧
    textDispatch (AddCommand (AddCommand emptyRegistry banInfo (some 1)) c8second
        (some 2)) "ban" "x" = none := by
  decide

/-- C8 amended: for two AddCommand calls with the identical trigger, the
trigger table afterwards holds only the second command and the calls do not
panic; the subsequent text-path dispatch of that trigger resolves to the
newest registration exclusively, invoking its handler with the remainder
when it is not a parent and routing through its own child resolution when it
is, provided the shared trigger is written in lower case by both calls, was
not previously claimed as an alias, and no other alias of either command
lower-cases to it (with a mixed-case spelling the dispatch lookup misses
entirely, as the counterexample shows). -/
theorem c8_lowercase_trigger_overwrite
    (st : RegistryState) (i1 i2 : CommandInfo) (f1 f2 : Option Nat) (t : String)
    (argString : String)
    (ht1 : i1.Trigger = t) (ht2 : i2.Trigger = t) (hlc : toLower t = t)
    (hfresh : mapLookup st.commandAliases t = none)
    (ha1 : ∀ b ∈ i1.Aliases, toLower b ≠ t) (ha2 : ∀ b ∈ i2.Aliases, toLower b ≠ t) :
    mapLookup (AddCommand (AddCommand st i1 f1) i2 f2).commands t
      = some { Info := { i2 with Aliases := i2.Aliases ++ [i2.Trigger] }, Function := f2 } ∧
    resolveCommand (AddCommand (AddCommand st i1 f1) i2 f2) t
      = some { Info := { i2 with Aliases := i2.Aliases ++ [i2.Trigger] }, Function := f2 } ∧
    textDispatch (AddCommand (AddCommand st i1 f1) i2 f2) t argString
      = some
          (if i2.IsParent then
            handleChildCommand (AddCommand (AddCommand st i1 f1) i2 f2).childCommands
              { Info := { i2 with Aliases := i2.Aliases ++ [i2.Trigger] }, Function := f2 }
              argString
          else
            { function := f2, cmd := { i2 with Aliases := i2.Aliases ++ [i2.Trigger] },
              argInput := some argString }) := by
  subst ht1
  have hcm : mapLookup (AddCommand (AddCommand st i1 f1) i2 f2).commands i1.Trigger
      = some { Info := { i2 with Aliases := i2.Aliases ++ [i2.Trigger] }, Function := f2 } := by
    show mapLookup (mapInsert (AddCommand st i1 f1).commands (toLower i2.Trigger)
      { Info := { i2 with Aliases := i2.Aliases ++ [i2.Trigger] }, Function := f2 })
      i1.Trigger = _
    rw [ht2, hlc]
    exact mapLookup_insert_self _ _ _
  have hal1 : mapLookup (AddCommand st i1 f1).commandAliases i1.Trigger = some i1.Trigger := by
    show mapLookup (addAliases st.commandAliases (i1.Aliases ++ [i1.Trigger]) i1.Trigger)
      i1.Trigger = some i1.Trigger
    rw [addAliases_append]
    have hA : mapLookup (addAliases st.commandAliases i1.Aliases i1.Trigger) i1.Trigger
        = none := addAliases_lookup_none _ _ _ _ hfresh ha1
    simp only [addAliases, hA]
    rw [hlc]
    exact mapLookup_insert_self _ _ _
  have hal2 : mapLookup (AddCommand (AddCommand st i1 f1) i2 f2).commandAliases i1.Trigger
      = some i1.Trigger := by
    show mapLookup (addAliases (AddCommand st i1 f1).commandAliases
      (i2.Aliases ++ [i2.Trigger]) i2.Trigger) i1.Trigger = some i1.Trigger
    rw [ht2, addAliases_append]
    have hB : mapLookup (addAliases (AddCommand st i1 f1).commandAliases i2.Aliases
        i1.Trigger) i1.Trigger = some i1.Trigger :=
      addAliases_preserve _ _ _ _ _ hal1 (fun b hb hEq => absurd hEq (ha2 b hb))
    simp only [addAliases, hB]
  have hres : resolveCommand (AddCommand (AddCommand st i1 f1) i2 f2) i1.Trigger
      = some { Info := { i2 with Aliases := i2.Aliases ++ [i2.Trigger] }, Function := f2 } := by
    show mapLookup (AddCommand (AddCommand st i1 f1) i2 f2).commands
      ((mapLookup (AddCommand (AddCommand st i1 f1) i2 f2).commandAliases
        (toLower i1.Trigger)).getD "") = _
    rw [hlc, hal2]
    exact hcm
  refine ⟨hcm, hres, ?_⟩
  show (match resolveCommand (AddCommand (AddCommand st i1 f1) i2 f2) i1.Trigger with
    | none => none
    | some command =>
      if command.Info.IsParent then
        some (handleChildCommand (AddCommand (AddCommand st i1 f1) i2 f2).childCommands
          command argString)
      else some { function := command.Function, cmd := command.Info,
                  argInput := some argString }) = _
  rw [hres]
  cases hI : i2.IsParent <;> simp [hI]

/-- Fixture: the second registration of the C8 parent scenario, a parent
command under the same lower-case trigger "ban". -/
def c8parentSecond : CommandInfo := { baseInfo with Trigger := "ban", IsParent := true }

/-- C8 witness: registering "ban" twice (both lower case) overwrites, and the
dispatch of "ban" invokes the second registration; with a parent command as
the second registration, dispatch routes through the child resolution of the
newest registration, here reaching its own fallback handler. -/
theorem c8_lowercase_trigger_overwrite_witness :
    mapLookup (AddCommand (AddCommand emptyRegistry c8second (some 1)) c8second
        (some 2)).commands "ban"
      = some { Info := { baseInfo with Aliases := ["ban"], Trigger := "ban" },
               Function := some 2 } ∧
    resolveCommand (AddCommand (AddCommand emptyRegistry c8second (some 1)) c8second
        (some 2)) "ban"
      = some { Info := { baseInfo with Aliases := ["ban"], Trigger := "ban" },
               Function := some 2 } ∧
    textDispatch (AddCommand (AddCommand emptyRegistry c8second (some 1)) c8second
        (some 2)) "ban" "x"
      = some { function := some 2,
               cmd := { baseInfo with Aliases := ["ban"], Trigger := "ban" },
               argInput := some "x" } ∧
    textDispatch (AddCommand (AddCommand emptyRegistry c8second (some 1)) c8parentSecond
        (some 4)) "ban" "x"
      = some (handleChildCommand
          (AddCommand (AddCommand emptyRegistry c8second (some 1)) c8parentSecond
            (some 4)).childCommands
          { Info := { baseInfo with Aliases := ["ban"], Trigger := "ban", IsParent := true },
            Function := some 4 } "x") ∧
    handleChildCommand
        (AddCommand (AddCommand emptyRegistry c8second (some 1)) c8parentSecond
          (some 4)).childCommands
        { Info := { baseInfo with Aliases := ["ban"], Trigger := "ban", IsParent := true },
          Function := some 4 } "x"
      = { function := some 4,
          cmd := { baseInfo with Aliases := ["ban"], Trigger := "ban", IsParent := true },
          argInput := none } := by
  have h := c8_lowercase_trigger_overwrite emptyRegistry c8second c8second
    (some 1) (some 2) "ban" "x" rfl rfl (by decide) (by decide)
    (by decide) (by decide)
  have hp := c8_lowercase_trigger_overwrite emptyRegistry c8second c8parentSecond
    (some 1) (some 4) "ban" "x" rfl rfl (by decide) (by decide)
    (by decide) (by decide)
  refine ⟨h.1, h.2.1, ?_, ?_, by decide⟩
  · simpa using h.2.2
  · simpa using hp.2.2

/-- Fixture: a pure parent command (parent, not child). -/
def c4parent : CommandInfo :=
  { baseInfo with Trigger := "config", Description := "cfg", IsParent := true }

/-- Fixture: the string argument descriptor of the C4 child. -/
def c4childArg : ArgInfo :=
  { TypeGuard := tgString, Description := "", Required := true, Choices := none }

/-- Fixture: the CommandInfo of the C4 child. -/
def c4childInfo : CommandInfo :=
  { baseInfo with Trigger := "set", Arguments := some [("value", c4childArg)] }

/-- Fixture: the C4 child command. -/
def c4child : Command := { Info := c4childInfo, Function := some 3 }

/-- Fixture: the child table of the C4 scenario. -/
def c4childTbl : List (String × Command) := [("set", c4child)]

/-- Fixture: a registry whose child table holds c4child under "config". -/
def c4state : RegistryState := { emptyRegistry with childCommands := [("config", c4childTbl)] }

/-- Fixture: a command that is simultaneously parent and child. -/
def c4both : CommandInfo :=
  { baseInfo with Trigger := "sub", IsParent := true, IsChild := true, ParentID := "config" }

/-- C4 counterexample: the guard of AddSlashCommand is
(not IsParent or not IsChild), so a pure parent takes the first branch and is
stored with the flat schema, not the children-derived one the claim requires
(the two differ here: the flat schema has no options, the children-derived
one has one); and a command that is simultaneously parent and child is
schema-registered by this path, through the second branch. -/
theorem c4_parent_gets_flat_schema_counterexample :
    AddSlashCommand c4state c4parent
      = Except.ok
          { c4state with
            slashCommands := [("config", createApplicationCommandStruct c4parent)] } ∧
    createChatInputSubCmdStruct c4parent c4childTbl
      = Except.ok
          { Name := "config", Description := "cfg",
            Options := [some (CommandInfo.CreateAppOptSt c4child.Info)] } ∧
    createApplicationCommandStruct c4parent
      ≠ { Name := "config", Description := "cfg",
          Options := [some (CommandInfo.CreateAppOptSt c4child.Info)] } ∧
    AddSlashCommand c4state c4both
      = Except.ok
          { c4state with
            slashCommands := [("sub", { Name := "sub", Description := "", Options := [] })] }
    := by
  refine ⟨rfl, rfl, by decide, rfl⟩

/-- C4 amended: AddSlashCommand stores the flat schema under the lower-cased
trigger for every command that is not simultaneously parent and child
(including pure parents); only a command that is both parent and child gets
the schema synthesized from childCommands[Trigger] by
createChatInputSubCmdStruct (propagating a fault of that synthesis). -/
theorem c4_slash_registration_branches (st : RegistryState) (info : CommandInfo) :
    (¬(info.IsParent = true ∧ info.IsChild = true) →
      AddSlashCommand st info = Except.ok
        { st with
          slashCommands :=
            mapInsert st.slashCommands (toLower info.Trigger)
              (createApplicationCommandStruct info) }) ∧
    (info.IsParent = true → info.IsChild = true →
      AddSlashCommand st info = Except.map
        (fun s =>
          { st with
            slashCommands := mapInsert st.slashCommands (toLower info.Trigger) s })
        (createChatInputSubCmdStruct info
          ((mapLookup st.childCommands info.Trigger).getD []))) := by
  constructor
  · intro h
    cases hP : info.IsParent <;> cases hC : info.IsChild
    · simp [AddSlashCommand, hP, hC]
    · simp [AddSlashCommand, hP, hC]
    · simp [AddSlashCommand, hP, hC]
    · exact absurd ⟨hP, hC⟩ h
  · intro hP hC
    simp only [AddSlashCommand, hP, hC, Bool.not_true, Bool.or_self, Bool.false_eq_true,
      if_false, if_true]
    cases hcc : createChatInputSubCmdStruct info
        ((mapLookup st.childCommands info.Trigger).getD []) with
    | error e => simp [Except.map]
    | ok s => simp [Except.map]

/-- C4 witness: a plain command gets the flat schema; a parent-and-child
command gets the children-derived schema. -/
theorem c4_slash_registration_witness :
    AddSlashCommand emptyRegistry banInfo = Except.ok
      { emptyRegistry with
        slashCommands :=
          mapInsert emptyRegistry.slashCommands (toLower banInfo.Trigger)
            (createApplicationCommandStruct banInfo) } ∧
    AddSlashCommand c4state c4both = Except.map
      (fun s =>
        { c4state with
          slashCommands := mapInsert c4state.slashCommands (toLower c4both.Trigger) s })
      (createChatInputSubCmdStruct c4both
        ((mapLookup c4state.childCommands c4both.Trigger).getD [])) :=
  ⟨(c4_slash_registration_branches emptyRegistry banInfo).1 (by decide),
   (c4_slash_registration_branches c4state c4both).2 rfl rfl⟩

/-- C7: for every argument descriptor whose type tag is none of the eight
mapped tags, the option synthesized by createApplicationCommandStruct has
the external string option type, and it does appear among the options of the
synthesized schema. -/
theorem c7_unknown_tag_falls_back_to_string (info : CommandInfo)
    (args : List (String × ArgInfo)) (k : String) (vv : ArgInfo)
    (hargs : info.Arguments = some args) (hmem : (k, vv) ∈ args)
    (hunk : vv.TypeGuard ∉ [tgInt, tgString, tgChannel, tgUser, tgRole, tgBoolean,
      tgSubCmd, tgSubCmdGrp]) :
    (createOption k vv).type = ApplicationCommandOptionString ∧
    some (createOption k vv) ∈ (createApplicationCommandStruct info).Options := by
  simp only [List.mem_cons, List.mem_singleton, not_or] at hunk
  obtain ⟨h1, h2, h3, h4, h5, h6, h7, h8, -⟩ := hunk
  have hn : mapLookup applicationCommandTypes vv.TypeGuard = none := by
    simp only [applicationCommandTypes, mapLookup]
    rw [if_neg (Ne.symm h1), if_neg (Ne.symm h2), if_neg (Ne.symm h3), if_neg (Ne.symm h4),
      if_neg (Ne.symm h5), if_neg (Ne.symm h6), if_neg (Ne.symm h7), if_neg (Ne.symm h8)]
  constructor
  · show (createOption k vv).type = ApplicationCommandOptionString
    simp only [createOption, hn]
    decide
  · have hne : args ≠ [] := List.ne_nil_of_mem hmem
    have hlen : ¬(args.length < 1) := by
      have := List.length_pos.mpr hne
      omega
    simp only [createApplicationCommandStruct, hargs, hlen, if_false]
    exact List.mem_map.mpr ⟨(k, vv), hmem, rfl⟩

/-- Fixture: an argument descriptor with the unknown type tag "Float". -/
def c7arg : ArgInfo :=
  { TypeGuard := "Float", Description := "how many", Required := false, Choices := none }

/-- Fixture: a command with one argument descriptor of unknown tag "Float". -/
def c7info : CommandInfo :=
  { baseInfo with Trigger := "roll", Arguments := some [("count", c7arg)] }

/-- C7 witness: the "Float" tag is not one of the eight mapped tags, and the
synthesized option carries the string option type. -/
theorem c7_unknown_tag_witness :
    (createOption "count" c7arg).type = ApplicationCommandOptionString ∧
    some (createOption "count" c7arg) ∈ (createApplicationCommandStruct c7info).Options :=
  c7_unknown_tag_falls_back_to_string c7info [("count", c7arg)] "count" c7arg
    rfl (by decide) (by decide)

theorem subCmdOptions_error_of_bad (l : List (String × Command))
    (h : ∃ p ∈ l, p.2.Info.Arguments = none ∨ p.2.Info.Arguments = some []) :
    ∃ e, subCmdOptions l = Except.error e := by
  induction l with
  | nil =>
    obtain ⟨p, hp, -⟩ := h
    exact absurd hp (List.not_mem_nil p)
  | cons q rest ih =>
    obtain ⟨nm, v⟩ := q
    obtain ⟨p, hp, hbad⟩ := h
    rcases List.mem_cons.mp hp with heq | hmem
    · subst heq
      rcases hbad with hA | hA
      · have hA' : v.Info.Arguments = none := hA
        exact ⟨GoFault.nilDereference, by simp [subCmdOptions, firstArgTypeGuard, hA']⟩
      · have hA' : v.Info.Arguments = some [] := hA
        exact ⟨GoFault.indexOutOfRange, by simp [subCmdOptions, firstArgTypeGuard, hA']⟩
    · obtain ⟨e, he⟩ := ih ⟨p, hmem, hbad⟩
      cases hf : firstArgTypeGuard v.Info.Arguments with
      | error e0 => exact ⟨e0, by simp [subCmdOptions, hf]⟩
      | ok tg =>
        by_cases hg : tg = tgSubCmdGrp
        · exact ⟨e, by simp [subCmdOptions, hf, hg, he]⟩
        · exact ⟨e, by simp [subCmdOptions, hf, hg, he]⟩

theorem subCmdOptions_ok_of_good (l : List (String × Command))
    (h : ∀ p ∈ l, p.2.Info.Arguments ≠ none ∧ p.2.Info.Arguments ≠ some []) :
    ∃ os, subCmdOptions l = Except.ok os ∧ os.length ≤ l.length := by
  induction l with
  | nil => exact ⟨[], rfl, Nat.le_refl 0⟩
  | cons q rest ih =>
    obtain ⟨nm, v⟩ := q
    obtain ⟨os, hos, hlen⟩ := ih (fun p hp => h p (List.mem_cons_of_mem _ hp))
    have hq := h (nm, v) (List.mem_cons_self _ _)
    obtain ⟨k0, vv0, rest0, hA⟩ :
        ∃ k0 vv0 rest0, v.Info.Arguments = some ((k0, vv0) :: rest0) := by
      cases hArg : v.Info.Arguments with
      | none => exact absurd hArg hq.1
      | some args =>
        cases args with
        | nil => exact absurd hArg hq.2
        | cons a as => exact ⟨a.1, a.2, as, by simp [hArg]⟩
    by_cases hg : vv0.TypeGuard = tgSubCmdGrp
    · exact ⟨os, by simp [subCmdOptions, firstArgTypeGuard, hA, hg, hos],
        Nat.le_succ_of_le hlen⟩
    · refine ⟨v.Info.CreateAppOptSt :: os, ?_, ?_⟩
      · simp [subCmdOptions, firstArgTypeGuard, hA, hg, hos]
      · simpa using Nat.succ_le_succ hlen

/-- C9: createChatInputSubCmdStruct reads the first argument descriptor of
every child unconditionally, so it panics (nil dereference or index out of
range) whenever some child of the parent has a nil Arguments map or an empty
key list; and when every child has a first descriptor, the returned Options
slice keeps the full child-count length, with the non-skipped children's
options at the front and nil entries in the trailing positions left by the
children skipped for being subcommand-group-tagged. -/
theorem c9_subcmd_struct_faults_and_trailing_nils (info : CommandInfo)
    (childCmds : List (String × Command)) :
    ((∃ p ∈ childCmds, p.2.Info.Arguments = none ∨ p.2.Info.Arguments = some []) →
      ∃ e, createChatInputSubCmdStruct info childCmds = Except.error e) ∧
    ((∀ p ∈ childCmds, p.2.Info.Arguments ≠ none ∧ p.2.Info.Arguments ≠ some []) →
      ∃ filled, subCmdOptions childCmds = Except.ok filled ∧
        createChatInputSubCmdStruct info childCmds = Except.ok
          { Name := info.Trigger, Description := info.Description,
            Options := filled.map some ++
              List.replicate (childCmds.length - filled.length) none } ∧
        (filled.map some ++
          List.replicate (childCmds.length - filled.length) none).length
          = childCmds.length) := by
  constructor
  · intro h
    obtain ⟨e, he⟩ := subCmdOptions_error_of_bad childCmds h
    exact ⟨e, by simp [createChatInputSubCmdStruct, he]⟩
  · intro h
    obtain ⟨os, hos, hlen⟩ := subCmdOptions_ok_of_good childCmds h
    refine ⟨os, hos, by simp [createChatInputSubCmdStruct, hos], ?_⟩
    simp only [List.length_append, List.length_map, List.length_replicate]
    omega

/-- Fixture: the parent of the C9 scenarios. -/
def c9parent : CommandInfo := { baseInfo with Trigger := "tree", IsParent := true }

/-- Fixture: a child whose Arguments map is nil. -/
def c9badChild : Command := { Info := { baseInfo with Trigger := "bad" }, Function := some 21 }

/-- Fixture: the argument descriptor of the kept C9 child. -/
def c9okArg : ArgInfo :=
  { TypeGuard := tgString, Description := "", Required := true, Choices := none }

/-- Fixture: a child with a first descriptor that is not subcommand-group. -/
def c9okChild : Command :=
  { Info := { baseInfo with Trigger := "leaf", Arguments := some [("value", c9okArg)] },
    Function := some 22 }

/-- Fixture: the subcommand-group descriptor of the skipped C9 child. -/
def c9grpArg : ArgInfo :=
  { TypeGuard := tgSubCmdGrp, Description := "", Required := false, Choices := none }

/-- Fixture: a child whose first descriptor is tagged subcommand-group. -/
def c9grpChild : Command :=
  { Info := { baseInfo with Trigger := "grp", Arguments := some [("g", c9grpArg)] },
    Function := some 23 }

/-- C9 witness: a child with nil Arguments makes the synthesis fault, and a
kept child followed by a skipped subcommand-group child yields a two-entry
Options slice whose trailing entry is nil. -/
theorem c9_subcmd_struct_witness :
    (∃ e, createChatInputSubCmdStruct c9parent [("bad", c9badChild)] = Except.error e) ∧
    (∃ filled, subCmdOptions [("leaf", c9okChild), ("grp", c9grpChild)] = Except.ok filled ∧
      createChatInputSubCmdStruct c9parent [("leaf", c9okChild), ("grp", c9grpChild)]
        = Except.ok
          { Name := c9parent.Trigger, Description := c9parent.Description,
            Options := filled.map some ++ List.replicate (2 - filled.length) none } ∧
      (filled.map some ++ List.replicate (2 - filled.length) none).length = 2) := by
  constructor
  · exact (c9_subcmd_struct_faults_and_trailing_nils c9parent [("bad", c9badChild)]).1
      (by decide)
  · have h := (c9_subcmd_struct_faults_and_trailing_nils c9parent
      [("leaf", c9okChild), ("grp", c9grpChild)]).2 (by decide)
    simpa using h

end Uberbot
